import Mathlib

/-
Verification of the schoolERP_js operator scripts (src/python_scripts).
Each Python script is shallowly embedded: every external interaction
(database connection attempt, SQL statement execution, HTTP request)
is represented by a component of an environment value passed to the
embedded function, and the observable behaviour (returned data, the
sequence of SQL or HTTP operations attempted, printed lines) is the
function result.
-/

namespace PyModel

/-- Values that can appear in a row fetched by the MySQL driver or be
passed as a cell to the tabulate library. -/
inductive PyVal where
  | none
  | bool (b : Bool)
  | int (i : Int)
  | str (s : String)
  deriving DecidableEq, Repr

/-- Python datetime.datetime restricted to the fields the scripts use. -/
structure PyDatetime where
  year : Nat
  month : Nat
  day : Nat
  hour : Nat
  minute : Nat
  second : Nat
  deriving DecidableEq, Repr

/-- Python datetime objects define no custom truth value, so they are
always truthy. -/
def PyDatetime.toBool (_ : PyDatetime) : Bool := true

/-- Zero padding to width 2, as the strftime directives %m %d %H %M %S do. -/
def pad2 (n : Nat) : String :=
  if n < 10 then "0" ++ toString n else toString n

/-- Zero padding to width 4, as the strftime directive %Y does on CPython. -/
def pad4 (n : Nat) : String :=
  if n < 10 then "000" ++ toString n
  else if n < 100 then "00" ++ toString n
  else if n < 1000 then "0" ++ toString n
  else toString n

/-- Rendering of strftime with the fixed format string used by the
scripts: year-month-day hour:minute:second. -/
def strftimeYmdHMS (d : PyDatetime) : String :=
  pad4 d.year ++ "-" ++ pad2 d.month ++ "-" ++ pad2 d.day ++ " " ++
    pad2 d.hour ++ ":" ++ pad2 d.minute ++ ":" ++ pad2 d.second

/-- Python truthiness of an optional string together with the or-default,
as in the expression (value or default). -/
def pyOrStr (v : Option String) (d : String) : String :=
  match v with
  | Option.none => d
  | Option.some s => if s = "" then d else s

/-- Substring test, modelling the Python expression (pat in s) on
strings; the patterns used by the scripts are never empty. -/
def strContains (s pat : String) : Bool :=
  (s.splitOn pat).length != 1

/-- Repetition of one character, modelling the Python expression
("=" * n) and similar separator lines. -/
def repChar (c : Char) (n : Nat) : String :=
  String.mk (List.replicate n c)

/-- Assignment d[k] = v on a Python dict represented as an insertion
ordered association list: an existing key keeps its position and gets the
new value, a new key is appended at the end. -/
def pySet {V : Type} : List (String × V) → String → V → List (String × V)
  | [], k, v => [(k, v)]
  | (k0, v0) :: rest, k, v =>
      if k0 = k then (k, v) :: rest else (k0, v0) :: pySet rest k v

/-- Lookup d.get(k) on a Python dict represented as an association list. -/
def pyGet {V : Type} : List (String × V) → String → Option V
  | [], _ => Option.none
  | (k0, v0) :: rest, k => if k0 = k then Option.some v0 else pyGet rest k

/-- Test whether the second list is an initial segment of the first. -/
def beginsWith : List Char → List Char → Bool
  | _, [] => true
  | [], _ :: _ => false
  | c :: cs, p :: ps => c = p && beginsWith cs ps

/-- Worker for pyReplace: scan the text left to right; at a position where
the nonempty pattern (p :: ps) starts, emit the replacement and skip past
the match, otherwise keep the character. The fuel argument only bounds the
recursion and is chosen at least as large as the text. -/
def replaceFuel (p : Char) (ps rep : List Char) : Nat → List Char → List Char
  | 0, l => l
  | _, [] => []
  | fuel + 1, c :: rest =>
      if beginsWith (c :: rest) (p :: ps) then
        rep ++ replaceFuel p ps rep fuel (rest.drop ps.length)
      else c :: replaceFuel p ps rep fuel rest

/-- Suffix test on strings through their character data. -/
def strEndsWith (s tail : String) : Bool :=
  beginsWith s.data.reverse tail.data.reverse

/-- Python str.replace(pat, rep): every leftmost non-overlapping occurrence
of pat is replaced by rep. The scripts only call it with a nonempty pat. -/
def pyReplace (s pat rep : String) : String :=
  match pat.data with
  | [] => s
  | p :: ps => String.mk (replaceFuel p ps rep.data s.data.length s.data)

/-- Result of a database connection attempt followed by one query, as seen
by a script function: connecting can fail with a driver error message, and
the query can fail with a driver error message or return data. -/
structure ConnQueryEnv (α : Type) where
  conn : Except String Unit
  query : Except String α

/-- Result environment for the functions that first run a SHOW TABLES LIKE
probe (tableCheck tells whether the probe errored or whether it returned a
row) and then the main query. -/
structure CheckedQueryEnv (α : Type) where
  conn : Except String Unit
  tableCheck : Except String Bool
  query : Except String α

/-- Line printed by connect_to_database when mysql.connector.connect
raises (identical in check_users.py, show_users.py, explore_db.py and,
with a leading marker, seed_admin_users.py). -/
def connectErrLine (db msg : String) : String :=
  "Error connecting to database " ++ db ++ ": " ++ msg

/-- The rendering function of the external tabulate library, which the
scripts only pass data to and print: it is kept abstract, as a parameter
of each embedded main. Cells are driver values, the second argument is
the header row. -/
def Tab : Type := List (List PyVal) → List String → String

/-- Observable behaviour of a process running one of the database
reporting scripts: the printed lines and the process exit status. -/
structure DbScriptRun where
  output : List String
  exitCode : Nat
  deriving DecidableEq

end PyModel

namespace check_users

open PyModel

/-- Row shape produced by the SELECT in get_system_users and
get_trust_users of check_users.py (both select the same nine columns
from SystemUsers respectively Users). -/
structure UserRow where
  id : Int
  username : String
  email : Option String
  role : String
  first_name : Option String
  last_name : Option String
  is_active : Bool
  created_at : Option PyDatetime
  last_login : Option PyDatetime
  deriving DecidableEq, Repr

/-- User row of check_users.get_trust_users after the loop that assigns
the database and trust_code keys of the row dict. -/
structure AugUserRow where
  id : Int
  username : String
  email : Option String
  role : String
  first_name : Option String
  last_name : Option String
  is_active : Bool
  created_at : Option PyDatetime
  last_login : Option PyDatetime
  database : String
  trust_code : String
  deriving DecidableEq, Repr

/-- Row shape of the SELECT in check_users.get_trust_info. -/
structure TrustRow where
  trust_code : String
  name : String
  is_active : Bool
  created_at : Option PyDatetime
  deriving DecidableEq, Repr

/-- Embedding of check_users.get_system_users: errors of the driver are
caught per call; the function returns the fetched rows, or an empty list,
together with the lines it printed. -/
def get_system_users (e : CheckedQueryEnv (List UserRow)) :
    List UserRow × List String :=
  match e.conn with
  | Except.error msg => ([], [connectErrLine "school_erp_system" msg])
  | Except.ok _ =>
    match e.tableCheck with
    | Except.error msg => ([], ["Error querying system users: " ++ msg])
    | Except.ok false => ([], ["SystemUsers table not found in system database"])
    | Except.ok true =>
      match e.query with
      | Except.error msg => ([], ["Error querying system users: " ++ msg])
      | Except.ok users => (users, [])

/-- Embedding of check_users.get_trust_databases. -/
def get_trust_databases (e : ConnQueryEnv (List String)) :
    List String × List String :=
  match e.conn with
  | Except.error msg => ([], [connectErrLine "information_schema" msg])
  | Except.ok _ =>
    match e.query with
    | Except.error msg => ([], ["Error getting trust databases: " ++ msg])
    | Except.ok dbs => (dbs, [])

/-- Row augmentation performed by the loop in check_users.get_trust_users:
the database key is set to the database name and the trust_code key to the
database name with the school_erp_trust_ substring removed; the nine
fetched columns are copied unchanged. -/
def augmentUser (database_name : String) (u : UserRow) : AugUserRow :=
  ⟨u.id, u.username, u.email, u.role, u.first_name, u.last_name,
   u.is_active, u.created_at, u.last_login,
   database_name, pyReplace database_name "school_erp_trust_" ""⟩

/-- Embedding of check_users.get_trust_users. A missing Users table
returns an empty list without printing; driver errors print and return an
empty list. -/
def get_trust_users (database_name : String)
    (e : CheckedQueryEnv (List UserRow)) : List AugUserRow × List String :=
  match e.conn with
  | Except.error msg => ([], [connectErrLine database_name msg])
  | Except.ok _ =>
    match e.tableCheck with
    | Except.error msg =>
        ([], ["Error querying users from " ++ database_name ++ ": " ++ msg])
    | Except.ok false => ([], [])
    | Except.ok true =>
      match e.query with
      | Except.error msg =>
          ([], ["Error querying users from " ++ database_name ++ ": " ++ msg])
      | Except.ok users => (users.map (augmentUser database_name), [])

/-- Embedding of check_users.get_trust_info: the fetched trusts are turned
into a dict keyed by trust_code (later rows with the same code win, as in
the Python dict comprehension); every failure path returns an empty dict. -/
def get_trust_info (e : CheckedQueryEnv (List TrustRow)) :
    List (String × TrustRow) × List String :=
  match e.conn with
  | Except.error msg => ([], [connectErrLine "school_erp_system" msg])
  | Except.ok _ =>
    match e.tableCheck with
    | Except.error msg => ([], ["Error querying trust info: " ++ msg])
    | Except.ok false => ([], [])
    | Except.ok true =>
      match e.query with
      | Except.error msg => ([], ["Error querying trust info: " ++ msg])
      | Except.ok trusts =>
          (trusts.foldl (fun d t => pySet d t.trust_code t) [], [])

/-- Embedding of check_users.format_datetime, including the unreachable
inner fallback guarded by the truthiness of the datetime object. -/
def format_datetime (dt : Option PyDatetime) : String :=
  match dt with
  | Option.none => "Never"
  | Option.some d => if d.toBool then strftimeYmdHMS d else "Never"

/-- Cell for the full name column: the first and last name (or empty
strings) joined by a space, stripped, with N/A when the result is empty. -/
def nameCell (f l : Option String) : String :=
  let s := (pyOrStr f "" ++ " " ++ pyOrStr l "").trim
  if s = "" then "N/A" else s

/-- Table row built by check_users.main for one user record. -/
def userCells (id0 : Int) (username : String) (email : Option String)
    (role : String) (fn ln : Option String) (act : Bool)
    (created ll : Option PyDatetime) : List PyVal :=
  [PyVal.int id0, PyVal.str username, PyVal.str (pyOrStr email "N/A"),
   PyVal.str role, PyVal.str (nameCell fn ln),
   PyVal.str (if act then "Active" else "Inactive"),
   PyVal.str (format_datetime created), PyVal.str (format_datetime ll)]

/-- Header row used for both user tables in check_users.main. -/
def userHeaders : List String :=
  ["ID", "Username", "Email", "Role", "Full Name", "Status", "Created",
   "Last Login"]

/-- Everything the database server answers during one run of
check_users.py, in the order the script asks. -/
structure World where
  sysEnv : CheckedQueryEnv (List UserRow)
  infoEnv : CheckedQueryEnv (List TrustRow)
  dbsEnv : ConnQueryEnv (List String)
  usersEnv : String → CheckedQueryEnv (List UserRow)

/-- Output of the per-database loop body of check_users.main. -/
def trustLoopStep (tab : Tab) (w : World)
    (info : List (String × TrustRow))
    (acc : List AugUserRow × List String) (db_name : String) :
    List AugUserRow × List String :=
  let trust_code := pyReplace db_name "school_erp_trust_" ""
  let trust_name :=
    match pyGet info trust_code with
    | Option.some t => t.name
    | Option.none => "Trust " ++ trust_code
  let fetched := get_trust_users db_name (w.usersEnv db_name)
  let header := "\n--- " ++ trust_name ++ " (Database: " ++ db_name ++ ") ---"
  match fetched.1 with
  | [] => (acc.1, acc.2 ++ [header] ++ fetched.2 ++
      ["No users found in this trust database."])
  | users =>
      (acc.1 ++ users,
       acc.2 ++ [header] ++ fetched.2 ++
        [tab (users.map fun u =>
            userCells u.id u.username u.email u.role u.first_name
              u.last_name u.is_active u.created_at u.last_login) userHeaders,
         "Users in " ++ trust_name ++ ": " ++ toString users.length])

/-- Embedding of check_users.main: the full printed report. -/
def main (tab : Tab) (w : World) : List String :=
  let su := get_system_users w.sysEnv
  let system_users := su.1
  let sysPart : List String :=
    ["=== School ERP Database Users Report ===\n",
     "1. SYSTEM DATABASE USERS", repChar '=' 50] ++ su.2 ++
    (match system_users with
     | [] => ["No system users found or error accessing database."]
     | users =>
        [tab (users.map fun u =>
            userCells u.id u.username u.email u.role u.first_name
              u.last_name u.is_active u.created_at u.last_login) userHeaders,
         "\nTotal System Users: " ++ toString users.length]) ++ ["\n"]
  let ti := get_trust_info w.infoEnv
  let tdb := get_trust_databases w.dbsEnv
  let trust_databases := tdb.1
  let headPart : List String :=
    ti.2 ++ ["2. TRUST DATABASE USERS", repChar '=' 50] ++ tdb.2
  let loop :=
    trust_databases.foldl (trustLoopStep tab w ti.1) ([], [])
  let all_trust_users := loop.1
  let trustPart : List String :=
    match trust_databases with
    | [] => ["No trust databases found."]
    | _ => loop.2 ++
        (match all_trust_users with
         | [] => []
         | l => ["\nTotal Trust Users across all databases: " ++
                  toString l.length])
  let totalTrust := match trust_databases with
    | [] => 0
    | _ => all_trust_users.length
  let summary : List String :=
    ["\n", "3. SUMMARY", repChar '=' 50,
     "System Users: " ++ toString system_users.length,
     "Trust Databases: " ++ toString trust_databases.length,
     "Total Trust Users: " ++ toString totalTrust,
     "Grand Total Users: " ++ toString (system_users.length + totalTrust)]
  sysPart ++ headPart ++ trustPart ++ summary

/-- Embedding of running check_users.py as a process: the module guard
calls main with no surrounding handler; main never raises (every driver
error is consumed inside the fetch functions), so the interpreter always
exits with status 0, whatever the database answered. The unused
parameters are the command line, the process environment and the readable
configuration files, none of which the script consults. -/
def run (argv : List String) (osEnv : List (String × String))
    (cfgFiles : String → Option String) (tab : Tab) (w : World) :
    DbScriptRun :=
  ⟨main tab w, 0⟩

end check_users

namespace show_users

open PyModel

/-- Row shape of the SELECT in show_users.get_system_users. -/
structure SysRow where
  id : Int
  username : String
  email : String
  full_name : Option String
  role : String
  status : String
  last_login_at : Option PyDatetime
  login_attempts : Option Int
  created_at : Option PyDatetime
  updated_at : Option PyDatetime
  deriving DecidableEq, Repr

/-- Row shape of the SELECT in show_users.get_trust_users. -/
structure TrustUserRow where
  id : Int
  email : String
  full_name : Option String
  role : String
  status : String
  created_at : Option PyDatetime
  updated_at : Option PyDatetime
  deriving DecidableEq, Repr

/-- Row shape of the SELECT in show_users.get_trust_info. -/
structure TrustRow where
  id : Int
  trust_code : String
  name : String
  status : String
  created_at : Option PyDatetime
  deriving DecidableEq, Repr

/-- Value returned by show_users.get_trust_info: an empty dict when the
connection fails, otherwise a list (empty on a query error, the fetched
rows on success). -/
inductive TrustInfoRes where
  | dictEmpty
  | rows (rs : List TrustRow)
  deriving DecidableEq, Repr

/-- Python truthiness of the get_trust_info result. -/
def TrustInfoRes.truthy : TrustInfoRes → Bool
  | TrustInfoRes.dictEmpty => false
  | TrustInfoRes.rows rs => !rs.isEmpty

/-- Embedding of show_users.get_system_users. -/
def get_system_users (e : ConnQueryEnv (List SysRow)) :
    List SysRow × List String :=
  match e.conn with
  | Except.error msg => ([], [connectErrLine "school_erp_system" msg])
  | Except.ok _ =>
    match e.query with
    | Except.error msg => ([], ["Error querying system users: " ++ msg])
    | Except.ok users => (users, [])

/-- Embedding of show_users.get_trust_users (fixed to the demo trust
database). -/
def get_trust_users (e : ConnQueryEnv (List TrustUserRow)) :
    List TrustUserRow × List String :=
  match e.conn with
  | Except.error msg => ([], [connectErrLine "school_erp_trust_demo" msg])
  | Except.ok _ =>
    match e.query with
    | Except.error msg => ([], ["Error querying trust users: " ++ msg])
    | Except.ok users => (users, [])

/-- Embedding of show_users.get_trust_info, whose two failure paths return
results of different Python types (empty dict, empty list). -/
def get_trust_info (e : ConnQueryEnv (List TrustRow)) :
    TrustInfoRes × List String :=
  match e.conn with
  | Except.error msg =>
      (TrustInfoRes.dictEmpty, [connectErrLine "school_erp_system" msg])
  | Except.ok _ =>
    match e.query with
    | Except.error msg =>
        (TrustInfoRes.rows [], ["Error querying trust info: " ++ msg])
    | Except.ok trusts => (TrustInfoRes.rows trusts, [])

/-- Embedding of show_users.format_datetime, textually identical to
check_users.format_datetime. -/
def format_datetime (dt : Option PyDatetime) : String :=
  match dt with
  | Option.none => "Never"
  | Option.some d => if d.toBool then strftimeYmdHMS d else "Never"

/-- Everything external that one run of show_users.py consumes: the
database answers, the two wall clock reads, and the day difference
operation of the datetime library. -/
structure World where
  infoEnv : ConnQueryEnv (List TrustRow)
  sysEnv : ConnQueryEnv (List SysRow)
  trustEnv : ConnQueryEnv (List TrustUserRow)
  nowReport : PyDatetime
  nowRecent : PyDatetime
  dayInterval : PyDatetime → PyDatetime → Int

/-- Role histogram accumulation of show_users.main, in insertion order as
a Python dict iterates. -/
def roleCounts (users : List TrustUserRow) : List (String × Nat) :=
  users.foldl (fun d u => pySet d u.role ((pyGet d u.role).getD 0 + 1)) []

/-- Embedding of show_users.main. -/
def main (tab : Tab) (w : World) : List String :=
  let ti := get_trust_info w.infoEnv
  let su := get_system_users w.sysEnv
  let tu := get_trust_users w.trustEnv
  let system_users := su.1
  let trust_users := tu.1
  let trustPart : List String :=
    match ti.1 with
    | TrustInfoRes.dictEmpty => ["No trust information found"]
    | TrustInfoRes.rows [] => ["No trust information found"]
    | TrustInfoRes.rows trusts =>
        [tab (trusts.map fun t =>
            [PyVal.int t.id, PyVal.str t.trust_code, PyVal.str t.name,
             PyVal.str t.status, PyVal.str (format_datetime t.created_at)])
          ["ID", "Trust Code", "Name", "Status", "Created"],
         "Total Trusts: " ++ toString trusts.length]
  let sysPart : List String :=
    match system_users with
    | [] => ["No system users found"]
    | users =>
        let active := users.filter fun u => u.status = "ACTIVE"
        let recent := users.filter fun u =>
          match u.last_login_at with
          | Option.none => false
          | Option.some d => w.dayInterval w.nowRecent d < 7
        [tab (users.map fun u =>
            [PyVal.int u.id, PyVal.str u.username, PyVal.str u.email,
             PyVal.str (pyOrStr u.full_name "N/A"), PyVal.str u.role,
             PyVal.str u.status, PyVal.str (format_datetime u.last_login_at),
             PyVal.int (u.login_attempts.getD 0),
             PyVal.str (format_datetime u.created_at)])
          ["ID", "Username", "Email", "Full Name", "Role", "Status",
           "Last Login", "Login Attempts", "Created"],
         "Total System Users: " ++ toString users.length,
         "Active Users: " ++ toString active.length,
         "Recently Logged In (last 7 days): " ++ toString recent.length]
  let trustUserPart : List String :=
    match trust_users with
    | [] => ["No trust users found"]
    | users =>
        [tab (users.map fun u =>
            [PyVal.int u.id, PyVal.str u.email,
             PyVal.str (pyOrStr u.full_name "N/A"), PyVal.str u.role,
             PyVal.str u.status, PyVal.str (format_datetime u.created_at),
             PyVal.str (format_datetime u.updated_at)])
          ["ID", "Email", "Full Name", "Role", "Status", "Created",
           "Updated"],
         "Total Trust Users: " ++ toString users.length] ++
        (match roleCounts users with
         | [] => []
         | rc => ["\nRole Distribution:"] ++
            rc.map fun kv => "  " ++ kv.1 ++ ": " ++ toString kv.2)
  let credsPart : List String :=
    (match system_users with
     | [] => []
     | users => ["\nSystem User Credentials Found:"] ++
        users.map fun u =>
          "  - " ++ u.username ++ " (" ++ u.email ++ ") - " ++ u.role) ++
    (match trust_users with
     | [] => []
     | users => ["\nTrust User Credentials Found:"] ++
        users.map fun u =>
          let uname := if strContains u.email "@"
            then (u.email.splitOn "@").headD u.email else u.email
          "  - " ++ uname ++ " (" ++ u.email ++ ") - " ++ u.role)
  ["=== SCHOOL ERP USERS REPORT ===",
   "Report generated on: " ++ format_datetime (Option.some w.nowReport) ++ "\n",
   "TRUST INFORMATION", repChar '=' 80] ++ ti.2 ++ trustPart ++
  ["\n\n", "SYSTEM USERS (System Administrators)", repChar '=' 80] ++
  su.2 ++ sysPart ++
  ["\n\n", "TRUST USERS (Demo Trust - demo.localhost:3000)", repChar '=' 80] ++
  tu.2 ++ trustUserPart ++
  ["\n\n", "SUMMARY", repChar '=' 80,
   "System Database Users: " ++ toString system_users.length,
   "Trust Database Users: " ++ toString trust_users.length,
   "Grand Total Users: " ++
     toString (system_users.length + trust_users.length)] ++ credsPart

/-- Embedding of running show_users.py as a process: main is called with
no surrounding handler and never raises, so the exit status is 0 for
every database answer. -/
def run (argv : List String) (osEnv : List (String × String))
    (cfgFiles : String → Option String) (tab : Tab) (w : World) :
    DbScriptRun :=
  ⟨main tab w, 0⟩

end show_users

namespace explore_db

open PyModel

/-- Row shape of the DESCRIBE statement run by explore_db.describe_table:
the Field, Type, Null and Key columns are strings, Default may be NULL. -/
structure ColInfo where
  field : String
  ctype : String
  nullable : String
  key : String
  dflt : PyVal
  deriving DecidableEq, Repr

/-- Row of a SELECT * query, as the dict cursor returns it. -/
def DictRow : Type := List (String × PyVal)

/-- Embedding of explore_db.show_tables. -/
def show_tables (database_name : String) (e : ConnQueryEnv (List String)) :
    List String × List String :=
  match e.conn with
  | Except.error msg => ([], [connectErrLine database_name msg])
  | Except.ok _ =>
    match e.query with
    | Except.error msg =>
        ([], ["Error getting tables from " ++ database_name ++ ": " ++ msg])
    | Except.ok tables => (tables, [])

/-- Embedding of explore_db.describe_table. -/
def describe_table (database_name table_name : String)
    (e : ConnQueryEnv (List ColInfo)) : List ColInfo × List String :=
  match e.conn with
  | Except.error msg => ([], [connectErrLine database_name msg])
  | Except.ok _ =>
    match e.query with
    | Except.error msg =>
        ([], ["Error describing table " ++ table_name ++ " in " ++
              database_name ++ ": " ++ msg])
    | Except.ok columns => (columns, [])

/-- Embedding of explore_db.get_table_data. -/
def get_table_data (database_name table_name : String) (limit : Nat)
    (e : ConnQueryEnv (List DictRow)) : List DictRow × List String :=
  match e.conn with
  | Except.error msg => ([], [connectErrLine database_name msg])
  | Except.ok _ =>
    match e.query with
    | Except.error msg =>
        ([], ["Error getting data from " ++ table_name ++ " in " ++
              database_name ++ ": " ++ msg])
    | Except.ok rows => (rows, [])

/-- Everything the database answers during one run of explore_db.py,
together with the dict-keyed rendering entry of the tabulate library. -/
structure World where
  tablesEnv : String → ConnQueryEnv (List String)
  describeEnv : String → String → ConnQueryEnv (List ColInfo)
  dataEnv : String → String → Nat → ConnQueryEnv (List DictRow)
  tabKeys : List DictRow → String

/-- Filter picking the user related tables, as in the two list
comprehensions of explore_db.main. -/
def userRelated (tables : List String) : List String :=
  tables.filter fun t =>
    strContains t.toLower "user" || strContains t.toLower "admin"

/-- Numbered listing of the discovered tables. -/
def numberedTables (tables : List String) : List String :=
  tables.enum.map fun p => "  " ++ toString (p.1 + 1) ++ ". " ++ p.2

/-- Structure plus sample data section printed for one user related
table. -/
def tableDetail (tab : Tab) (w : World) (db : String) (limit : Nat)
    (table : String) : List String :=
  let cols := describe_table db table (w.describeEnv db table)
  let data := get_table_data db table limit (w.dataEnv db table limit)
  ["\n--- Structure of " ++ table ++ " ---"] ++ cols.2 ++
  (match cols.1 with
   | [] => []
   | cs => [tab (cs.map fun c =>
        [PyVal.str c.field, PyVal.str c.ctype, PyVal.str c.nullable,
         PyVal.str c.key, c.dflt])
      ["Field", "Type", "Null", "Key", "Default"]]) ++
  ["\n--- Sample data from " ++ table ++ " ---"] ++ data.2 ++
  (match data.1 with
   | [] => ["No data found"]
   | ds => [w.tabKeys ds])

/-- Sample data only section printed for one table of the fallback branch
of the trust database part. -/
def tableSample (w : World) (db : String) (limit : Nat) (table : String) :
    List String :=
  let data := get_table_data db table limit (w.dataEnv db table limit)
  ["\n--- " ++ table ++ " ---"] ++ data.2 ++
  (match data.1 with
   | [] => ["No data found"]
   | ds => [w.tabKeys ds])

/-- Embedding of the system database section of explore_db.main. -/
def systemSection (tab : Tab) (w : World) : List String :=
  let st := show_tables "school_erp_system" (w.tablesEnv "school_erp_system")
  ["1. SYSTEM DATABASE (school_erp_system)", repChar '=' 60] ++ st.2 ++
  (match st.1 with
   | [] => ["No tables found or error accessing database."]
   | tables =>
      ["Tables found:"] ++ numberedTables tables ++
      (match userRelated tables with
       | [] => []
       | uts =>
          ["\nUser-related tables: " ++ String.intercalate ", " uts] ++
          (uts.take 3).flatMap (tableDetail tab w "school_erp_system" 5)))

/-- Embedding of the trust database section of explore_db.main. -/
def trustSection (tab : Tab) (w : World) : List String :=
  let st := show_tables "school_erp_trust_demo"
    (w.tablesEnv "school_erp_trust_demo")
  ["2. TRUST DATABASE (school_erp_trust_demo)", repChar '=' 60] ++ st.2 ++
  (match st.1 with
   | [] => ["No tables found or error accessing database."]
   | tables =>
      ["Tables found:"] ++ numberedTables tables ++
      (match userRelated tables with
       | [] =>
          ["No user-related tables found. All tables:"] ++
          (tables.take 5).flatMap (tableSample w "school_erp_trust_demo" 3)
       | uts =>
          ["\nUser-related tables: " ++ String.intercalate ", " uts] ++
          (uts.take 3).flatMap (tableDetail tab w "school_erp_trust_demo" 5)))

/-- Embedding of explore_db.main. -/
def main (tab : Tab) (w : World) : List String :=
  ["=== Database Structure Exploration ===\n"] ++
  systemSection tab w ++ ["\n\n"] ++ trustSection tab w

/-- Embedding of running explore_db.py as a process: no top level handler,
main never raises, exit status 0 for every database answer. -/
def run (argv : List String) (osEnv : List (String × String))
    (cfgFiles : String → Option String) (tab : Tab) (w : World) :
    DbScriptRun :=
  ⟨main tab w, 0⟩

end explore_db

namespace seed_admin_users

open PyModel

/-- SQL statement kinds attempted by seed_admin_users.py, tagged with the
database and table they address. The script opens every connection with
autocommit and never issues a transaction statement; the two transaction
constructors exist so that their absence from the generated trace is a
statement about the program, not about the vocabulary. -/
inductive SqlOp where
  | delete (db table : String)
  | describe (db table : String)
  | insert (db table : String)
  | select (db table : String)
  | txnBegin (db : String)
  | txnCommit (db : String)
  deriving DecidableEq, Repr

/-- External bcrypt library: salt generation from a cost factor, and the
hash of a password byte string with a salt. -/
structure BcryptLib where
  gensalt : Nat → List Nat
  hashpw : List Nat → List Nat → List Nat

/-- The UTF-8 encoding and decoding pair used around the bcrypt calls. -/
structure Utf8Codec where
  encode : String → List Nat
  decode : List Nat → String

/-- Embedding of seed_admin_users.hash_password: encode the password,
generate a salt with cost factor 12, hash, decode the hash. -/
def hash_password (lib : BcryptLib) (codec : Utf8Codec) (password : String) :
    String :=
  let password_bytes := codec.encode password
  let salt := lib.gensalt 12
  let hashed := lib.hashpw password_bytes salt
  codec.decode hashed

/-- Database answers consumed while seeding one target database. -/
structure SeedTargetEnv where
  conn : Except String Unit
  deleteRes : Except String Nat
  describeRes : Except String (List String)
  insertRes : Except String Unit

/-- Database answers consumed while verifying one target database. -/
structure VerifyTargetEnv where
  conn : Except String Unit
  describeRes : Except String (List String)
  selectRes : Except String (List (List PyVal))

/-- Everything external that one run of seed_admin_users.py consumes. -/
structure World where
  lib : BcryptLib
  codec : Utf8Codec
  nowSystem : PyDatetime
  nowDemo : PyDatetime
  nowMaroon : PyDatetime
  system : SeedTargetEnv
  demo : SeedTargetEnv
  maroon : SeedTargetEnv
  vsystem : VerifyTargetEnv
  vdemo : VerifyTargetEnv
  vmaroon : VerifyTargetEnv

/-- Embedding of seed_admin_users.clear_existing_users: the DELETE is
always attempted; a driver error is caught and printed. -/
def clear_existing_users (res : Except String Nat)
    (table_name database_name : String) : List SqlOp × List String :=
  ([SqlOp.delete database_name table_name],
   match res with
   | Except.ok n =>
      ["Cleared " ++ toString n ++ " existing users from " ++
        database_name ++ "." ++ table_name]
   | Except.error msg =>
      ["Error clearing " ++ database_name ++ "." ++ table_name ++ ": " ++ msg])

/-- Embedding of seed_admin_users.seed_system_admin: one INSERT into
system_users, after computing the bcrypt hash of admin123. -/
def seed_system_admin (lib : BcryptLib) (codec : Utf8Codec)
    (_now : PyDatetime) (res : Except String Unit) :
    List SqlOp × List String :=
  let _hashed := hash_password lib codec "admin123"
  ([SqlOp.insert "school_erp_system" "system_users"],
   match res with
   | Except.ok _ => ["Created system admin: admin/admin123"]
   | Except.error msg => ["Error creating system admin: " ++ msg])

/-- Embedding of seed_admin_users.seed_tenant_admin: a DESCRIBE of users
picks between the two INSERT variants (both insert one row into users);
if the DESCRIBE raises, the error is caught and no INSERT is attempted. -/
def seed_tenant_admin (lib : BcryptLib) (codec : Utf8Codec)
    (_now : PyDatetime) (describeRes : Except String (List String))
    (insertRes : Except String Unit) (database_name trust_name : String) :
    List SqlOp × List String :=
  let _hashed := hash_password lib codec "admin123"
  match describeRes with
  | Except.error msg =>
      ([SqlOp.describe database_name "users"],
       ["Error creating " ++ trust_name ++ " admin: " ++ msg])
  | Except.ok _columns =>
      ([SqlOp.describe database_name "users",
        SqlOp.insert database_name "users"],
       match insertRes with
       | Except.ok _ => ["Created " ++ trust_name ++ " admin: admin/admin123"]
       | Except.error msg =>
          ["Error creating " ++ trust_name ++ " admin: " ++ msg])

/-- Verification step of seed_admin_users.verify_users for the system
database. -/
def verify_sys (tab : Tab) (e : VerifyTargetEnv) : List SqlOp × List String :=
  match e.conn with
  | Except.error msg => ([], [connectErrLine "school_erp_system" msg])
  | Except.ok _ =>
      ([SqlOp.select "school_erp_system" "system_users"],
       match e.selectRes with
       | Except.error msg => ["Error verifying System: " ++ msg]
       | Except.ok users =>
          ["\nSystem (school_erp_system):"] ++
          (match users with
           | [] => ["   No users found"]
           | us => [tab us ["Username", "Full Name", "Role", "Status"]]))

/-- Verification step of seed_admin_users.verify_users for a tenant
database: DESCRIBE picks the column set of the SELECT. -/
def verify_tenant (tab : Tab) (db display : String) (e : VerifyTargetEnv) :
    List SqlOp × List String :=
  match e.conn with
  | Except.error msg => ([], [connectErrLine db msg])
  | Except.ok _ =>
    match e.describeRes with
    | Except.error msg =>
        ([SqlOp.describe db "users"],
         ["Error verifying " ++ display ++ ": " ++ msg])
    | Except.ok columns =>
      let headers := if columns.contains "username"
        then ["Username", "Email", "First Name", "Last Name", "Type", "Active"]
        else ["Email", "Full Name", "Role", "Status"]
      ([SqlOp.describe db "users", SqlOp.select db "users"],
       match e.selectRes with
       | Except.error msg => ["Error verifying " ++ display ++ ": " ++ msg]
       | Except.ok users =>
          ["\n" ++ display ++ " (" ++ db ++ "):"] ++
          (match users with
           | [] => ["   No users found"]
           | us => [tab us headers]))

/-- Embedding of seed_admin_users.verify_users. -/
def verify_users (tab : Tab) (w : World) : List SqlOp × List String :=
  let s := verify_sys tab w.vsystem
  let d := verify_tenant tab "school_erp_trust_demo" "Demo Trust" w.vdemo
  let m := verify_tenant tab "school_erp_trust_maroon" "Maroon Trust" w.vmaroon
  (s.1 ++ d.1 ++ m.1,
   ["\nVERIFICATION - All Created Users:", repChar '=' 60] ++
   s.2 ++ d.2 ++ m.2)

/-- Seeding block for one target database as written inline in
seed_admin_users.main: on a successful connection, clear then seed;
a failed connection only prints. -/
def seedBlock (clearSeed : List SqlOp × List String)
    (conn : Except String Unit) (db : String) : List SqlOp × List String :=
  match conn with
  | Except.error msg => ([], [connectErrLine db msg])
  | Except.ok _ => clearSeed

/-- Embedding of seed_admin_users.main: the SQL operations attempted, in
order, and the printed lines. -/
def main (tab : Tab) (w : World) : List SqlOp × List String :=
  let sysBlock := seedBlock
    (let c := clear_existing_users w.system.deleteRes "system_users"
        "school_erp_system"
     let s := seed_system_admin w.lib w.codec w.nowSystem w.system.insertRes
     (c.1 ++ s.1, c.2 ++ s.2))
    w.system.conn "school_erp_system"
  let demoBlock := seedBlock
    (let c := clear_existing_users w.demo.deleteRes "users"
        "school_erp_trust_demo"
     let s := seed_tenant_admin w.lib w.codec w.nowDemo w.demo.describeRes
        w.demo.insertRes "school_erp_trust_demo" "Demo Trust"
     (c.1 ++ s.1, c.2 ++ s.2))
    w.demo.conn "school_erp_trust_demo"
  let maroonBlock := seedBlock
    (let c := clear_existing_users w.maroon.deleteRes "users"
        "school_erp_trust_maroon"
     let s := seed_tenant_admin w.lib w.codec w.nowMaroon
        w.maroon.describeRes w.maroon.insertRes "school_erp_trust_maroon"
        "Maroon Trust"
     (c.1 ++ s.1, c.2 ++ s.2))
    w.maroon.conn "school_erp_trust_maroon"
  let ver := verify_users tab w
  (sysBlock.1 ++ demoBlock.1 ++ maroonBlock.1 ++ ver.1,
   ["SEEDING ADMIN USERS WITH CONSISTENT CREDENTIALS", repChar '=' 60,
    "Creating admin/admin123 in all databases...", "",
    "1. Processing System Database..."] ++ sysBlock.2 ++
   ["\n2. Processing Demo Trust Database..."] ++ demoBlock.2 ++
   ["\n3. Processing Maroon Trust Database..."] ++ maroonBlock.2 ++
   ver.2 ++
   ["\n" ++ repChar '=' 60, "SEEDING COMPLETE!", "\nLOGIN CREDENTIALS:",
    "   System Admin (localhost:3000): admin / admin123",
    "   Demo Trust (demo.localhost:3000): admin@demo.school / admin123",
    "   Maroon Trust (maroon.localhost:3000): admin@maroon.school / admin123",
    "\nAll passwords are properly hashed with bcrypt (12 rounds)"])

/-- How far the call to main got before control reached the module level
handlers: it finished, or a KeyboardInterrupt arrived, or some other
exception escaped. -/
inductive RunResult where
  | finished
  | interrupted
  | raised (msg : String)
  deriving DecidableEq, Repr

/-- Exit status produced by the module level try blocks of
seed_admin_users.py: sys.exit(1) on KeyboardInterrupt, sys.exit(1) on any
other exception, and a normal exit otherwise. -/
def toplevel_exit : RunResult → Nat
  | RunResult.finished => 0
  | RunResult.interrupted => 1
  | RunResult.raised _ => 1

/-- Observable behaviour of a completed run of seed_admin_users.py. -/
structure SeedRun where
  sql : List SqlOp
  output : List String
  exitCode : Nat

/-- Embedding of running seed_admin_users.py to completion: main consumes
every driver error internally, so an uninterrupted run exits 0. -/
def run (argv : List String) (osEnv : List (String × String))
    (cfgFiles : String → Option String) (tab : Tab) (w : World) : SeedRun :=
  let m := main tab w
  ⟨m.1, m.2, toplevel_exit RunResult.finished⟩

end seed_admin_users

namespace HttpModel

open PyModel

/-- JSON values, as decoded by response.json(); numbers are integers
here, which covers everything these scripts compare. -/
inductive Json where
  | null
  | bool (b : Bool)
  | num (n : Int)
  | str (s : String)
  | arr (xs : List Json)
  | obj (fields : List (String × Json))

/-- Python truthiness of a decoded JSON value. -/
def Json.truthy : Json → Bool
  | Json.null => false
  | Json.bool b => b
  | Json.num n => n != 0
  | Json.str s => s != ""
  | Json.arr xs => !xs.isEmpty
  | Json.obj fs => !fs.isEmpty

/-- Test whether a JSON value is exactly the given string, the equality a
Python list membership test applies elementwise. -/
def Json.isStrVal (k : String) : Json → Bool
  | Json.str s => s = k
  | _ => false

/-- Python membership test (k in x) for a string k: key lookup on a dict,
element search on a list, substring search on a string, and a TypeError
on the remaining types. -/
def Json.inOp (k : String) : Json → Except Unit Bool
  | Json.obj fs => Except.ok (fs.any fun p => p.1 = k)
  | Json.arr xs => Except.ok (xs.any (Json.isStrVal k))
  | Json.str s => Except.ok (strContains s k)
  | _ => Except.error ()

/-- Python subscription x[k] for a string k: dict lookup, KeyError when
the key is absent, TypeError on every non-dict. -/
def Json.getItem (j : Json) (k : String) : Except Unit Json :=
  match j with
  | Json.obj fs =>
    match fs.find? (fun p => p.1 = k) with
    | Option.some p => Except.ok p.2
    | Option.none => Except.error ()
  | _ => Except.error ()

/-- One HTTP request as issued through requests.post: everything the
scripts pass explicitly, including the socket timeout in seconds. -/
structure HttpRequest where
  method : String
  url : String
  headers : List (String × String)
  body : List (String × String)
  timeoutSec : Option Nat
  allowRedirects : Bool
  deriving DecidableEq, Repr

/-- What one requests.post call came back with: a raised exception, or a
response carrying a status, a body text, and the result of parsing that
text as JSON. -/
inductive HttpOutcome where
  | exc (msg : String)
  | resp (status : Nat) (text : String) (json : Except Unit Json)

/-- Observable behaviour of a run of one of the HTTP test scripts: the
requests attempted in order, the printed lines, and the exit status. -/
structure HttpScriptRun where
  http : List HttpRequest
  output : List String
  exitCode : Nat

end HttpModel

namespace test_auth

open PyModel HttpModel

/-- Request shape shared by the four probes of test_auth.py. -/
def probe (url email pw : String) : HttpRequest :=
  ⟨"POST", url, [("Content-Type", "application/json")],
   [("email", email), ("password", pw)], Option.some 10, true⟩

/-- The four responses one run of test_auth.py receives. -/
structure World where
  o1 : HttpOutcome
  o2 : HttpOutcome
  o3 : HttpOutcome
  o4 : HttpOutcome

/-- Lines printed by one probe of test_auth.py: the status and body on a
response, the caught message on any exception. -/
def probeOut (o : HttpOutcome) : List String :=
  match o with
  | HttpOutcome.exc msg => ["Error: " ++ msg]
  | HttpOutcome.resp status text _ =>
      ["Status: " ++ toString status, "Response: " ++ text]

/-- Embedding of running test_auth.py: each probe sits in its own try
block, so all four requests are always attempted, in a fixed order, and
the script always exits 0. -/
def run (argv : List String) (osEnv : List (String × String))
    (cfgFiles : String → Option String) (w : World) : HttpScriptRun :=
  ⟨[probe "http://localhost:3000/login" "admin@system.local" "syspass123",
    probe "http://demo.localhost:3000/login" "admin@trustdemo.edu"
      "trustpass123",
    probe "http://demo.localhost:3000/login" "admin@system.local"
      "syspass123",
    probe "http://localhost:3000/login" "admin@trustdemo.edu"
      "trustpass123"],
   ["=== Testing Multi-tenant Authentication ==="] ++
   ["\n1. Testing System User Login at localhost:3000"] ++ probeOut w.o1 ++
   ["\n2. Testing Trust User Login at demo.localhost:3000"] ++
   probeOut w.o2 ++
   ["\n3. Testing System User Login at demo.localhost:3000 (should be blocked)"] ++
   probeOut w.o3 ++
   ["\n4. Testing Trust User Login at localhost:3000 (should be blocked)"] ++
   probeOut w.o4 ++
   ["\n=== Test Complete ==="],
   0⟩

end test_auth

namespace test_simple_auth

open PyModel HttpModel

/-- Request shape shared by the two probes of test_simple_auth.py. -/
def probe (url email pw : String) : HttpRequest :=
  ⟨"POST", url, [("Content-Type", "application/json")],
   [("email", email), ("password", pw)], Option.some 5, true⟩

/-- The two responses one run of test_simple_auth.py receives. -/
structure World where
  o1 : HttpOutcome
  o2 : HttpOutcome

/-- Lines printed by one probe of test_simple_auth.py; the body text is
truncated to 500 characters. -/
def probeOut (o : HttpOutcome) : List String :=
  match o with
  | HttpOutcome.exc msg => ["Error: " ++ msg]
  | HttpOutcome.resp status text _ =>
      ["Status: " ++ toString status, "Response: " ++ text.take 500]

/-- Embedding of running test_simple_auth.py. -/
def run (argv : List String) (osEnv : List (String × String))
    (cfgFiles : String → Option String) (w : World) : HttpScriptRun :=
  ⟨[probe "http://localhost:3000/login" "admin@system.local" "syspass123",
    probe "http://localhost:3000/login" "admin@trustdemo.edu"
      "trustpass123"],
   ["=== Testing Authentication (localhost only) ==="] ++
   ["\n1. Testing System User Login at localhost:3000"] ++ probeOut w.o1 ++
   ["\n2. Testing Trust User Login at localhost:3000 (should be blocked)"] ++
   probeOut w.o2 ++
   ["\n=== Test Complete ===",
    "Note: Testing tenant login requires subdomain setup in hosts file"],
   0⟩

end test_simple_auth

namespace test_security

open PyModel HttpModel

/-- The condition computed for expected_result BLOCKED in
test_security.test_request, with exceptions of response.json() and of the
membership and subscription operators made explicit: pass on status 401,
403 or 400 without touching the body; on status 200 decode the body, test
for the success key, decode again and negate the truthiness of its value;
fail on any other status. -/
def blockedCheck (status : Nat) (body : Except Unit Json) :
    Except Unit Bool :=
  if status = 401 || status = 403 || status = 400 then Except.ok true
  else if status = 200 then
    match body with
    | Except.error u => Except.error u
    | Except.ok j1 =>
      match Json.inOp "success" j1 with
      | Except.error u => Except.error u
      | Except.ok has =>
        if has then
          match body with
          | Except.error u => Except.error u
          | Except.ok j2 =>
            match j2.getItem "success" with
            | Except.error u => Except.error u
            | Except.ok v => Except.ok (!v.truthy)
        else Except.ok false
  else Except.ok false

/-- The condition computed for expected_result SUCCESS in
test_security.test_request. -/
def successCheck (status : Nat) (body : Except Unit Json) :
    Except Unit Bool :=
  if status = 200 then
    match body with
    | Except.error u => Except.error u
    | Except.ok j1 =>
      match Json.inOp "success" j1 with
      | Except.error u => Except.error u
      | Except.ok has =>
        if has then
          match body with
          | Except.error u => Except.error u
          | Except.ok j2 =>
            match j2.getItem "success" with
            | Except.error u => Except.error u
            | Except.ok v => Except.ok v.truthy
        else Except.ok false
  else Except.ok false

/-- Branch selection on expected_result in test_security.test_request. -/
def expectedCheck (status : Nat) (body : Except Unit Json)
    (expected : String) : Except Unit Bool :=
  if expected = "BLOCKED" then blockedCheck status body
  else if expected = "SUCCESS" then successCheck status body
  else Except.ok true

/-- Pass verdict reported by test_security.test_request once a response
was received: the selected condition, with any exception it raises caught
by the surrounding generic handler, which returns False. -/
def test_request_pass (status : Nat) (body : Except Unit Json)
    (expected : String) : Bool :=
  match expectedCheck status body expected with
  | Except.ok b => b
  | Except.error _ => false

/-- Request shape issued by test_security.test_request. -/
def secRequest (url : String) (data : List (String × String)) :
    HttpRequest :=
  ⟨"POST", url,
   [("Content-Type", "application/json"),
    ("User-Agent", "Security-Test-Client/1.0"),
    ("Accept", "application/json")],
   data, Option.some 10, false⟩

/-- Embedding of test_security.test_request: the request attempted, the
returned verdict, and the printed lines. A raised request exception is
caught and reported as a failed test; a response is printed, then the
expected-result condition runs, its own exception being caught by the
generic handler. -/
def test_request (url : String) (data : List (String × String))
    (expected : String) (outcome : HttpOutcome)
    (dumps : List (String × String) → String) (jdumps : Json → String) :
    HttpRequest × Bool × List String :=
  let request := secRequest url data
  let common := ["URL: " ++ url, "Data: " ++ dumps data]
  let rest : Bool × List String :=
    match outcome with
    | HttpOutcome.exc msg =>
        (false, common ++ ["Connection Error: " ++ msg])
    | HttpOutcome.resp status text js =>
        let respLine := match js with
          | Except.ok j => "Response: " ++ jdumps j
          | Except.error _ => "Response: " ++ text.take 200 ++ "..."
        let shown := common ++ ["Status: " ++ toString status, respLine]
        match expectedCheck status js expected with
        | Except.error _ =>
            (false, shown ++ ["Unexpected Error: operator raised"])
        | Except.ok b =>
            (b, shown ++
              ["Expected: " ++ expected,
               "Result: " ++ (if b then "PASS" else "FAIL")])
  (request, rest.1, rest.2)

/-- Header block printed by test_security.print_header. -/
def print_header (t : String) : List String :=
  ["\n" ++ repChar '=' 60, " " ++ t, repChar '=' 60]

/-- Test block printed by test_security.print_test. -/
def print_test (name desc : String) : List String :=
  ["\nTEST: " ++ name, "   " ++ desc, repChar '-' 50]

/-- Everything external that one run of test_security.py consumes: the
seven response outcomes, the two wall clock reads, and the formatting
entries of the json library and of the percentage rendering. -/
structure World where
  o1 : HttpOutcome
  o2 : HttpOutcome
  o3 : HttpOutcome
  o4 : HttpOutcome
  o5 : HttpOutcome
  o6 : HttpOutcome
  o7 : HttpOutcome
  now1 : PyDatetime
  now2 : PyDatetime
  dumps : List (String × String) → String
  jdumps : Json → String
  formatRate : Nat → Nat → String

/-- The urls, payloads, expectations and display names of the seven probes
of test_security.main, in program order. -/
def probeSpecs : List (String × List (String × String) × String × String) :=
  [("http://localhost:3000/login",
    [("email", "sysadmin"), ("password", "admin123")], "SUCCESS",
    "System Admin Main Domain"),
   ("http://demo.localhost:3000/login",
    [("email", "sysadmin"), ("password", "admin123")], "BLOCKED",
    "System Admin from Tenant Domain"),
   ("http://demo.localhost:3000/login",
    [("email", "admin@demo.school"), ("password", "password123")], "DEPENDS",
    "Trust User from Tenant Domain"),
   ("http://localhost:3000/login",
    [("email", "admin@demo.school"), ("password", "password123")], "BLOCKED",
    "Trust User from Main Domain"),
   ("http://demo.localhost:3000/login",
    [("email", "admin"), ("password", "password123")], "BLOCKED",
    "System Creds on Tenant Domain"),
   ("http://demo.localhost:3000/login",
    [("email", "trustadmin@demo.school"), ("password", "fakepassword")],
    "BLOCKED", "Fake Trust Admin"),
   ("http://invalid.localhost:3000/login",
    [("email", "admin"), ("password", "password")], "DEPENDS",
    "Invalid Subdomain")]

/-- The per test banner lines of test_security.main, in program order. -/
def probeBanners : List (List String) :=
  [print_header "TEST 1: SYSTEM ADMIN AUTHENTICATION" ++
    print_test "1.1 System Admin from Main Domain"
      "System admin should be able to login from localhost:3000",
   print_test "1.2 System Admin from Tenant Domain"
      "System admin should be BLOCKED from demo.localhost:3000",
   print_header "TEST 2: TRUST USER AUTHENTICATION" ++
    print_test "2.1 Trust User from Tenant Domain"
      "Trust user should be able to login from demo.localhost:3000",
   print_test "2.2 Trust User from Main Domain"
      "Trust user should be BLOCKED or fail from localhost:3000",
   print_header "TEST 3: CROSS-AUTHENTICATION SECURITY" ++
    print_test "3.1 System Credentials on Tenant Domain"
      "Using system admin credentials on tenant domain",
   print_test "3.2 Fake Trust Admin Credentials"
      "Using fake trust admin credentials",
   print_header "TEST 4: DOMAIN VALIDATION" ++
    print_test "4.1 Invalid Domain Resolution"
      "Testing invalid subdomain handling"]

/-- Embedding of test_security.main. The seven test_request calls always
run: test_request catches every exception itself, so the extra try block
around probe 4.1 never fires. -/
def run (argv : List String) (osEnv : List (String × String))
    (cfgFiles : String → Option String) (w : World) : HttpScriptRun :=
  let outcomes := [w.o1, w.o2, w.o3, w.o4, w.o5, w.o6, w.o7]
  let probes := probeSpecs.zip outcomes
  let ran := probes.map fun p =>
    (test_request p.1.1 p.1.2.1 p.1.2.2.1 p.2 w.dumps w.jdumps, p.1.2.2.2)
  let results := ran.map fun r => (r.2, r.1.2.1)
  let passed := (results.filter fun r => r.2).length
  let total := results.length
  let perProbe := (probeBanners.zip ran).flatMap fun pb =>
    pb.1 ++ pb.2.1.2.2
  ⟨ran.map fun r => r.1.1,
   print_header "School ERP Authentication Security Test Suite" ++
   ["Test Time: " ++ strftimeYmdHMS w.now1,
    "\nWaiting for server to be ready..."] ++
   perProbe ++
   print_header "SECURITY TEST RESULTS SUMMARY" ++
   ["\nOverall Results: " ++ toString passed ++ "/" ++ toString total ++
      " tests passed",
    "Success Rate: " ++ w.formatRate passed total,
    "\nDetailed Results:"] ++
   (results.map fun r =>
      "   " ++ (if r.2 then "PASS" else "FAIL") ++ " " ++ r.1) ++
   print_header "SECURITY ANALYSIS" ++
   (if passed * 10 ≥ total * 8 then
      ["SECURITY STATUS: GOOD",
       "Most security checks are working correctly",
       "Cross-domain authentication appears to be properly restricted"]
    else
      ["SECURITY STATUS: NEEDS ATTENTION",
       "Some security checks failed",
       "Review the failed tests and fix security gaps"]) ++
   ["\nSecurity Recommendations:",
    "   1. Ensure system admins cannot access tenant domains",
    "   2. Ensure trust users cannot access system admin functions",
    "   3. Verify CORS policies are properly configured",
    "   4. Test with real credentials when available",
    "\nTest Completed: " ++ strftimeYmdHMS w.now2],
   0⟩

end test_security

namespace claims

open PyModel HttpModel seed_admin_users

/-- Test for an INSERT into the given database. -/
def isInsertOn (db : String) : SqlOp → Bool
  | SqlOp.insert db2 _ => db2 = db
  | _ => false

/-- Test for a DELETE on the given database. -/
def isDeleteOn (db : String) : SqlOp → Bool
  | SqlOp.delete db2 _ => db2 = db
  | _ => false

/-- Test for a SELECT on the given database. -/
def isSelectOn (db : String) : SqlOp → Bool
  | SqlOp.select db2 _ => db2 = db
  | _ => false

/-- Test for a transaction control statement. -/
def isTxn : SqlOp → Bool
  | SqlOp.txnBegin _ => true
  | SqlOp.txnCommit _ => true
  | _ => false

/-- Scanning from the head: true when no INSERT into db occurs before the
first DELETE on db; every INSERT into db therefore happens strictly after
a DELETE on db already ran. -/
def insertsAfterDelete (db : String) : List SqlOp → Bool
  | [] => true
  | op :: rest =>
    if isInsertOn db op then false
    else if isDeleteOn db op then true
    else insertsAfterDelete db rest

/-- True when no SELECT on db occurs anywhere before an INSERT into db,
so no read of existing rows (a uniqueness check in particular) guards the
insert. -/
def noSelectBeforeInsert (db : String) : List SqlOp → Bool
  | [] => true
  | op :: rest =>
    if isSelectOn db op then
      !(rest.any (isInsertOn db)) && noSelectBeforeInsert db rest
    else noSelectBeforeInsert db rest

/-- Conjunction of the trace shape properties claimed of the seed script:
no transaction statements, each of the three databases has its inserts
strictly after a delete, at most one admin insert per database, and no
select before an insert. -/
def seedTraceOk (tr : List SqlOp) : Bool :=
  tr.all (fun op => !isTxn op) &&
  insertsAfterDelete "school_erp_system" tr &&
  insertsAfterDelete "school_erp_trust_demo" tr &&
  insertsAfterDelete "school_erp_trust_maroon" tr &&
  Nat.ble (List.countP (isInsertOn "school_erp_system") tr) 1 &&
  Nat.ble (List.countP (isInsertOn "school_erp_trust_demo") tr) 1 &&
  Nat.ble (List.countP (isInsertOn "school_erp_trust_maroon") tr) 1 &&
  noSelectBeforeInsert "school_erp_system" tr &&
  noSelectBeforeInsert "school_erp_trust_demo" tr &&
  noSelectBeforeInsert "school_erp_trust_maroon" tr

/-- Property claimed of every request of the authentication test scripts:
a POST, to a path ending in /login, whose JSON payload has exactly the
keys email and password in this order. -/
def loginShaped (r : HttpRequest) : Bool :=
  r.method == "POST" && strEndsWith r.url "/login" &&
  r.body.map Prod.fst == ["email", "password"]

/-- Condition taken from the claim text for C4: the decoded JSON body is
an object containing a success key whose value is falsy. -/
def successKeyFalsy : Except Unit Json → Bool
  | Except.ok (Json.obj fs) =>
    match fs.find? (fun p => p.1 = "success") with
    | Option.some p => !p.2.truthy
    | Option.none => false
  | _ => false

/-- Condition taken from the claim text for C4: the decoded JSON body is
an object containing a success key whose value is truthy. -/
def successKeyTruthy : Except Unit Json → Bool
  | Except.ok (Json.obj fs) =>
    match fs.find? (fun p => p.1 = "success") with
    | Option.some p => p.2.truthy
    | Option.none => false
  | _ => false

/-- Pass verdict as worded by the claim for C4: with BLOCKED expected,
pass exactly on status 401, 403 or 400, or on status 200 with a falsy
success flag; with SUCCESS expected, pass exactly on status 200 with a
truthy success flag; with any other expectation, always pass. -/
def claimedVerdict (status : Nat) (body : Except Unit Json)
    (expected : String) : Bool :=
  if expected = "BLOCKED" then
    (status == 401 || status == 403 || status == 400) ||
    (status == 200 && successKeyFalsy body)
  else if expected = "SUCCESS" then
    status == 200 && successKeyTruthy body
  else true

end claims

/-- C2: seed_admin_users.hash_password returns the UTF-8 decoding of a
bcrypt hash of the UTF-8 encoded password, computed with a salt generated
at cost factor 12, for every password and every behaviour of the bcrypt
library and of the codec. -/
theorem c2_hash_password_bcrypt_cost_12 :
    ∀ (lib : seed_admin_users.BcryptLib) (codec : seed_admin_users.Utf8Codec)
      (password : String),
      seed_admin_users.hash_password lib codec password =
        codec.decode (lib.hashpw (codec.encode password) (lib.gensalt 12)) :=
  fun _ _ _ => rfl

/-- C5: every HTTP request issued by test_auth.py, test_simple_auth.py and
test_security.py is a POST to a path ending in /login whose JSON body has
exactly the keys email and password, whatever the responses, the command
line and the process environment are. -/
theorem c5_all_requests_are_login_posts :
    (∀ (a : List String) (e : List (String × String))
       (c : String → Option String) (w : test_auth.World),
       ((test_auth.run a e c w).http.all claims.loginShaped) = true) ∧
    (∀ (a : List String) (e : List (String × String))
       (c : String → Option String) (w : test_simple_auth.World),
       ((test_simple_auth.run a e c w).http.all claims.loginShaped) = true) ∧
    (∀ (a : List String) (e : List (String × String))
       (c : String → Option String) (w : test_security.World),
       ((test_security.run a e c w).http.all claims.loginShaped) = true) := by
  refine ⟨?_, ?_, ?_⟩ <;> intros <;> rfl

/-- C6: each HTTP test script issues a fixed sequence of requests that
does not depend on any response or failure (so a failed request is never
retried), and every request carries an explicit literal socket timeout:
10 seconds in test_auth.py and test_security.py, 5 in test_simple_auth.py. -/
theorem c6_fixed_requests_with_explicit_timeouts :
    (∀ (a a2 : List String) (e e2 : List (String × String))
       (c c2 : String → Option String) (w w2 : test_auth.World),
       (test_auth.run a e c w).http = (test_auth.run a2 e2 c2 w2).http) ∧
    (∀ (a a2 : List String) (e e2 : List (String × String))
       (c c2 : String → Option String) (w w2 : test_simple_auth.World),
       (test_simple_auth.run a e c w).http =
         (test_simple_auth.run a2 e2 c2 w2).http) ∧
    (∀ (a a2 : List String) (e e2 : List (String × String))
       (c c2 : String → Option String) (w w2 : test_security.World),
       (test_security.run a e c w).http =
         (test_security.run a2 e2 c2 w2).http) ∧
    (∀ (a : List String) (e : List (String × String))
       (c : String → Option String) (w : test_auth.World),
       ((test_auth.run a e c w).http.all
         fun r => r.timeoutSec == Option.some 10) = true) ∧
    (∀ (a : List String) (e : List (String × String))
       (c : String → Option String) (w : test_simple_auth.World),
       ((test_simple_auth.run a e c w).http.all
         fun r => r.timeoutSec == Option.some 5) = true) ∧
    (∀ (a : List String) (e : List (String × String))
       (c : String → Option String) (w : test_security.World),
       ((test_security.run a e c w).http.all
         fun r => r.timeoutSec == Option.some 10) = true) := by
  refine ⟨?_, ?_, ?_, ?_, ?_, ?_⟩ <;> intros <;> rfl

/-- C7: only seed_admin_users.py maps errors to a distinct exit status:
its module level handlers exit with 1 on KeyboardInterrupt and on any
other escaped exception, while an uninterrupted run and every run of the
other six scripts exit with 0 for every database or HTTP outcome, because
their caught errors never reach sys.exit. -/
theorem c7_exit_status_handling :
    (seed_admin_users.toplevel_exit seed_admin_users.RunResult.interrupted
      = 1) ∧
    (∀ msg, seed_admin_users.toplevel_exit
      (seed_admin_users.RunResult.raised msg) = 1) ∧
    (seed_admin_users.toplevel_exit seed_admin_users.RunResult.finished
      = 0) ∧
    (∀ (a : List String) (e : List (String × String))
       (c : String → Option String) (tab : PyModel.Tab)
       (w : seed_admin_users.World),
       (seed_admin_users.run a e c tab w).exitCode = 0) ∧
    (∀ (a : List String) (e : List (String × String))
       (c : String → Option String) (tab : PyModel.Tab)
       (w : check_users.World),
       (check_users.run a e c tab w).exitCode = 0) ∧
    (∀ (a : List String) (e : List (String × String))
       (c : String → Option String) (tab : PyModel.Tab)
       (w : show_users.World),
       (show_users.run a e c tab w).exitCode = 0) ∧
    (∀ (a : List String) (e : List (String × String))
       (c : String → Option String) (tab : PyModel.Tab)
       (w : explore_db.World),
       (explore_db.run a e c tab w).exitCode = 0) ∧
    (∀ (a : List String) (e : List (String × String))
       (c : String → Option String) (w : test_auth.World),
       (test_auth.run a e c w).exitCode = 0) ∧
    (∀ (a : List String) (e : List (String × String))
       (c : String → Option String) (w : test_simple_auth.World),
       (test_simple_auth.run a e c w).exitCode = 0) ∧
    (∀ (a : List String) (e : List (String × String))
       (c : String → Option String) (w : test_security.World),
       (test_security.run a e c w).exitCode = 0) := by
  refine ⟨rfl, ?_, rfl, ?_, ?_, ?_, ?_, ?_, ?_, ?_⟩ <;> intros <;> rfl

/-- C8: for every script, two runs that share the external world (database
answers, HTTP responses, clocks, library rendering functions) but differ
in command line arguments, process environment and readable configuration
files produce identical behaviour, because no script consults any of the
three. -/
theorem c8_behaviour_ignores_argv_env_config :
    (∀ (a1 a2 : List String) (e1 e2 : List (String × String))
       (c1 c2 : String → Option String) (tab : PyModel.Tab)
       (w : check_users.World),
       check_users.run a1 e1 c1 tab w = check_users.run a2 e2 c2 tab w) ∧
    (∀ (a1 a2 : List String) (e1 e2 : List (String × String))
       (c1 c2 : String → Option String) (tab : PyModel.Tab)
       (w : show_users.World),
       show_users.run a1 e1 c1 tab w = show_users.run a2 e2 c2 tab w) ∧
    (∀ (a1 a2 : List String) (e1 e2 : List (String × String))
       (c1 c2 : String → Option String) (tab : PyModel.Tab)
       (w : explore_db.World),
       explore_db.run a1 e1 c1 tab w = explore_db.run a2 e2 c2 tab w) ∧
    (∀ (a1 a2 : List String) (e1 e2 : List (String × String))
       (c1 c2 : String → Option String) (tab : PyModel.Tab)
       (w : seed_admin_users.World),
       seed_admin_users.run a1 e1 c1 tab w =
         seed_admin_users.run a2 e2 c2 tab w) ∧
    (∀ (a1 a2 : List String) (e1 e2 : List (String × String))
       (c1 c2 : String → Option String) (w : test_auth.World),
       test_auth.run a1 e1 c1 w = test_auth.run a2 e2 c2 w) ∧
    (∀ (a1 a2 : List String) (e1 e2 : List (String × String))
       (c1 c2 : String → Option String) (w : test_simple_auth.World),
       test_simple_auth.run a1 e1 c1 w = test_simple_auth.run a2 e2 c2 w) ∧
    (∀ (a1 a2 : List String) (e1 e2 : List (String × String))
       (c1 c2 : String → Option String) (w : test_security.World),
       test_security.run a1 e1 c1 w = test_security.run a2 e2 c2 w) := by
  refine ⟨?_, ?_, ?_, ?_, ?_, ?_, ?_⟩ <;> intros <;> rfl

/-- Appending strings concatenates their character data. -/
theorem string_data_append (s t : String) :
    (s ++ t).data = s.data ++ t.data := rfl

/-- Membership of a character in the left part survives appending. -/
theorem mem_string_data_append_left {c : Char} {s : String} (t : String)
    (h : c ∈ s.data) : c ∈ (s ++ t).data := by
  rw [string_data_append]; exact List.mem_append_left _ h

/-- The fixed strftime format always renders a hyphen, so its result is
never the Never placeholder. -/
theorem strftime_has_dash (d : PyModel.PyDatetime) :
    '-' ∈ (PyModel.strftimeYmdHMS d).data := by
  have h1 : '-' ∈ (PyModel.pad4 d.year ++ "-").data := by
    rw [string_data_append]
    exact List.mem_append_right _ (by decide)
  have h2 := mem_string_data_append_left (PyModel.pad2 d.month) h1
  have h3 := mem_string_data_append_left "-" h2
  have h4 := mem_string_data_append_left (PyModel.pad2 d.day) h3
  have h5 := mem_string_data_append_left " " h4
  have h6 := mem_string_data_append_left (PyModel.pad2 d.hour) h5
  have h7 := mem_string_data_append_left ":" h6
  have h8 := mem_string_data_append_left (PyModel.pad2 d.minute) h7
  have h9 := mem_string_data_append_left ":" h8
  exact mem_string_data_append_left (PyModel.pad2 d.second) h9

/-- C10: format_datetime answers Never exactly on a missing datetime, and
on every present datetime it returns the strftime rendering (the inner
fallback is dead because datetimes are always truthy); the copies in
check_users.py and show_users.py agree on every input. -/
theorem c10_format_datetime_never_iff_none :
    (∀ dt, (check_users.format_datetime dt == "Never") = dt.isNone) ∧
    (∀ d, check_users.format_datetime (Option.some d) =
      PyModel.strftimeYmdHMS d) ∧
    (∀ dt, show_users.format_datetime dt = check_users.format_datetime dt) := by
  refine ⟨?_, fun d => rfl, ?_⟩
  · intro dt
    match dt with
    | Option.none => decide
    | Option.some d =>
        show (PyModel.strftimeYmdHMS d == "Never") = false
        refine beq_eq_false_iff_ne.mpr ?_
        intro h
        have hm := strftime_has_dash d
        rw [h] at hm
        exact absurd hm (by decide)
  · intro dt
    match dt with
    | Option.none => rfl
    | Option.some d => rfl

/-- C1: every data fetching function of the scripts turns a failed
connection or a raised driver error into an empty result (empty list, or
empty dict where a dict is normally returned) together with a printed
message, and never passes on data from the failing call. -/
theorem c1_fetch_errors_become_empty_results :
    (∀ (msg : String) (tc : Except String Bool)
       (q : Except String (List check_users.UserRow)),
       check_users.get_system_users ⟨Except.error msg, tc, q⟩ =
         ([], [PyModel.connectErrLine "school_erp_system" msg])) ∧
    (∀ (msg : String) (q : Except String (List check_users.UserRow)),
       check_users.get_system_users ⟨Except.ok (), Except.error msg, q⟩ =
         ([], ["Error querying system users: " ++ msg])) ∧
    (∀ (msg : String),
       check_users.get_system_users
         ⟨Except.ok (), Except.ok true, Except.error msg⟩ =
         ([], ["Error querying system users: " ++ msg])) ∧
    (∀ (msg : String) (q : Except String (List String)),
       check_users.get_trust_databases ⟨Except.error msg, q⟩ =
         ([], [PyModel.connectErrLine "information_schema" msg])) ∧
    (∀ (msg : String),
       check_users.get_trust_databases ⟨Except.ok (), Except.error msg⟩ =
         ([], ["Error getting trust databases: " ++ msg])) ∧
    (∀ (db msg : String) (tc : Except String Bool)
       (q : Except String (List check_users.UserRow)),
       check_users.get_trust_users db ⟨Except.error msg, tc, q⟩ =
         ([], [PyModel.connectErrLine db msg])) ∧
    (∀ (db msg : String) (q : Except String (List check_users.UserRow)),
       check_users.get_trust_users db ⟨Except.ok (), Except.error msg, q⟩ =
         ([], ["Error querying users from " ++ db ++ ": " ++ msg])) ∧
    (∀ (db msg : String),
       check_users.get_trust_users db
         ⟨Except.ok (), Except.ok true, Except.error msg⟩ =
         ([], ["Error querying users from " ++ db ++ ": " ++ msg])) ∧
    (∀ (msg : String) (tc : Except String Bool)
       (q : Except String (List check_users.TrustRow)),
       check_users.get_trust_info ⟨Except.error msg, tc, q⟩ =
         ([], [PyModel.connectErrLine "school_erp_system" msg])) ∧
    (∀ (msg : String) (q : Except String (List check_users.TrustRow)),
       check_users.get_trust_info ⟨Except.ok (), Except.error msg, q⟩ =
         ([], ["Error querying trust info: " ++ msg])) ∧
    (∀ (msg : String),
       check_users.get_trust_info
         ⟨Except.ok (), Except.ok true, Except.error msg⟩ =
         ([], ["Error querying trust info: " ++ msg])) ∧
    (∀ (msg : String) (q : Except String (List show_users.SysRow)),
       show_users.get_system_users ⟨Except.error msg, q⟩ =
         ([], [PyModel.connectErrLine "school_erp_system" msg])) ∧
    (∀ (msg : String),
       show_users.get_system_users ⟨Except.ok (), Except.error msg⟩ =
         ([], ["Error querying system users: " ++ msg])) ∧
    (∀ (msg : String) (q : Except String (List show_users.TrustUserRow)),
       show_users.get_trust_users ⟨Except.error msg, q⟩ =
         ([], [PyModel.connectErrLine "school_erp_trust_demo" msg])) ∧
    (∀ (msg : String),
       show_users.get_trust_users ⟨Except.ok (), Except.error msg⟩ =
         ([], ["Error querying trust users: " ++ msg])) ∧
    (∀ (msg : String) (q : Except String (List show_users.TrustRow)),
       show_users.get_trust_info ⟨Except.error msg, q⟩ =
         (show_users.TrustInfoRes.dictEmpty,
          [PyModel.connectErrLine "school_erp_system" msg])) ∧
    (∀ (msg : String),
       show_users.get_trust_info ⟨Except.ok (), Except.error msg⟩ =
         (show_users.TrustInfoRes.rows [],
          ["Error querying trust info: " ++ msg])) ∧
    (∀ (db msg : String) (q : Except String (List String)),
       explore_db.show_tables db ⟨Except.error msg, q⟩ =
         ([], [PyModel.connectErrLine db msg])) ∧
    (∀ (db msg : String),
       explore_db.show_tables db ⟨Except.ok (), Except.error msg⟩ =
         ([], ["Error getting tables from " ++ db ++ ": " ++ msg])) ∧
    (∀ (db tbl msg : String) (q : Except String (List explore_db.ColInfo)),
       explore_db.describe_table db tbl ⟨Except.error msg, q⟩ =
         ([], [PyModel.connectErrLine db msg])) ∧
    (∀ (db tbl msg : String),
       explore_db.describe_table db tbl ⟨Except.ok (), Except.error msg⟩ =
         ([], ["Error describing table " ++ tbl ++ " in " ++ db ++ ": " ++
               msg])) ∧
    (∀ (db tbl msg : String) (limit : Nat)
       (q : Except String (List explore_db.DictRow)),
       explore_db.get_table_data db tbl limit ⟨Except.error msg, q⟩ =
         ([], [PyModel.connectErrLine db msg])) ∧
    (∀ (db tbl msg : String) (limit : Nat),
       explore_db.get_table_data db tbl limit
         ⟨Except.ok (), Except.error msg⟩ =
         ([], ["Error getting data from " ++ tbl ++ " in " ++ db ++ ": " ++
               msg])) := by
  refine ⟨?_, ?_, ?_, ?_, ?_, ?_, ?_, ?_, ?_, ?_, ?_, ?_, ?_, ?_, ?_, ?_,
    ?_, ?_, ?_, ?_, ?_, ?_, ?_⟩ <;> intros <;> rfl

/-- C9: on a successful fetch, check_users.get_trust_users returns exactly
the fetched rows augmented in place: the database field is the queried
database name, the trust_code field is that name with every occurrence of
the school_erp_trust_ substring removed, and the nine fetched columns are
unchanged. -/
theorem c9_get_trust_users_augmentation :
    (∀ (db : String) (rows : List check_users.UserRow),
       (check_users.get_trust_users db
         ⟨Except.ok (), Except.ok true, Except.ok rows⟩).1 =
         rows.map (check_users.augmentUser db)) ∧
    (∀ (db : String) (u : check_users.UserRow),
       (check_users.augmentUser db u).database = db ∧
       (check_users.augmentUser db u).trust_code =
         PyModel.pyReplace db "school_erp_trust_" "" ∧
       (check_users.augmentUser db u).id = u.id ∧
       (check_users.augmentUser db u).username = u.username ∧
       (check_users.augmentUser db u).email = u.email ∧
       (check_users.augmentUser db u).role = u.role ∧
       (check_users.augmentUser db u).first_name = u.first_name ∧
       (check_users.augmentUser db u).last_name = u.last_name ∧
       (check_users.augmentUser db u).is_active = u.is_active ∧
       (check_users.augmentUser db u).created_at = u.created_at ∧
       (check_users.augmentUser db u).last_login = u.last_login) ∧
    (∀ (u : check_users.UserRow),
       (check_users.augmentUser "school_erp_trust_demo" u).trust_code =
         "demo") := by
  refine ⟨fun _ _ => rfl, ?_, fun _ =>
    (by decide :
      PyModel.pyReplace "school_erp_trust_demo" "school_erp_trust_" "" =
        "demo")⟩
  intro db u
  exact ⟨rfl, rfl, rfl, rfl, rfl, rfl, rfl, rfl, rfl, rfl, rfl⟩

/-- A key membership test on an association list is the definedness of the
corresponding first match. -/
theorem any_key_eq_find_isSome (fs : List (String × HttpModel.Json))
    (k : String) :
    (fs.any fun p => p.1 = k) = (fs.find? (fun p => p.1 = k)).isSome := by
  induction fs with
  | nil => rfl
  | cons h t ih =>
    by_cases hk : h.1 = k
    · rw [List.find?_cons_of_pos _ (by simpa using hk)]
      simp [hk]
    · rw [List.find?_cons_of_neg _ (by simpa using hk)]
      simp [hk, ih]

/-- C4: the verdict of test_security.test_request is exactly the claimed
one: with BLOCKED expected it passes exactly on status 401, 403 or 400,
or on status 200 with a decoded object carrying a falsy success value;
with SUCCESS expected exactly on status 200 with a truthy success value;
with any other expectation it always passes. The second part ties the
verdict predicate to the full test_request embedding on every received
response. -/
theorem c4_test_request_verdict :
    (∀ (status : Nat) (body : Except Unit HttpModel.Json)
       (expected : String),
       test_security.test_request_pass status body expected =
         claims.claimedVerdict status body expected) ∧
    (∀ (url : String) (data : List (String × String)) (expected : String)
       (status : Nat) (text : String) (js : Except Unit HttpModel.Json)
       (dumps : List (String × String) → String)
       (jdumps : HttpModel.Json → String),
       (test_security.test_request url data expected
         (HttpModel.HttpOutcome.resp status text js) dumps jdumps).2.1 =
         test_security.test_request_pass status js expected) := by
  constructor
  · intro status body expected
    by_cases hB : expected = "BLOCKED"
    · by_cases h1 : status = 401
      · subst h1
        simp [test_security.test_request_pass, test_security.expectedCheck,
          test_security.blockedCheck, claims.claimedVerdict, hB]
      · by_cases h3 : status = 403
        · subst h3
          simp [test_security.test_request_pass,
            test_security.expectedCheck, test_security.blockedCheck,
            claims.claimedVerdict, hB]
        · by_cases h4 : status = 400
          · subst h4
            simp [test_security.test_request_pass,
              test_security.expectedCheck, test_security.blockedCheck,
              claims.claimedVerdict, hB]
          · by_cases h2 : status = 200
            · subst h2
              rcases body with u | j
              · simp [test_security.test_request_pass,
                  test_security.expectedCheck, test_security.blockedCheck,
                  claims.claimedVerdict, claims.successKeyFalsy, hB]
              · rcases j with _ | bb | nn | ss | xs | fs
                · simp [test_security.test_request_pass,
                    test_security.expectedCheck, test_security.blockedCheck,
                    claims.claimedVerdict, claims.successKeyFalsy,
                    HttpModel.Json.inOp, hB]
                · simp [test_security.test_request_pass,
                    test_security.expectedCheck, test_security.blockedCheck,
                    claims.claimedVerdict, claims.successKeyFalsy,
                    HttpModel.Json.inOp, hB]
                · simp [test_security.test_request_pass,
                    test_security.expectedCheck, test_security.blockedCheck,
                    claims.claimedVerdict, claims.successKeyFalsy,
                    HttpModel.Json.inOp, hB]
                · cases hc : PyModel.strContains ss "success" <;>
                    simp [test_security.test_request_pass,
                      test_security.expectedCheck,
                      test_security.blockedCheck, claims.claimedVerdict,
                      claims.successKeyFalsy, HttpModel.Json.inOp,
                      HttpModel.Json.getItem, hB, hc]
                · cases hc : xs.any (HttpModel.Json.isStrVal "success") <;>
                    simp [test_security.test_request_pass,
                      test_security.expectedCheck,
                      test_security.blockedCheck, claims.claimedVerdict,
                      claims.successKeyFalsy, HttpModel.Json.inOp,
                      HttpModel.Json.getItem, hB, hc]
                · rcases hf : fs.find? (fun p => p.1 = "success") with _ | p
                  · have ha : (fs.any fun p => p.1 = "success") = false := by
                      rw [any_key_eq_find_isSome, hf]; rfl
                    simp [test_security.test_request_pass,
                      test_security.expectedCheck,
                      test_security.blockedCheck, claims.claimedVerdict,
                      claims.successKeyFalsy, HttpModel.Json.inOp, hB, ha,
                      hf]
                  · have ha : (fs.any fun p => p.1 = "success") = true := by
                      rw [any_key_eq_find_isSome, hf]; rfl
                    simp [test_security.test_request_pass,
                      test_security.expectedCheck,
                      test_security.blockedCheck, claims.claimedVerdict,
                      claims.successKeyFalsy, HttpModel.Json.inOp,
                      HttpModel.Json.getItem, hB, ha, hf]
            · simp [test_security.test_request_pass,
                test_security.expectedCheck, test_security.blockedCheck,
                claims.claimedVerdict, claims.successKeyFalsy, hB, h1, h3,
                h4, h2]
    · by_cases hS : expected = "SUCCESS"
      · by_cases h2 : status = 200
        · subst h2
          rcases body with u | j
          · simp [test_security.test_request_pass,
              test_security.expectedCheck, test_security.successCheck,
              claims.claimedVerdict, claims.successKeyTruthy, hB, hS]
          · rcases j with _ | bb | nn | ss | xs | fs
            · simp [test_security.test_request_pass,
                test_security.expectedCheck, test_security.successCheck,
                claims.claimedVerdict, claims.successKeyTruthy,
                HttpModel.Json.inOp, hB, hS]
            · simp [test_security.test_request_pass,
                test_security.expectedCheck, test_security.successCheck,
                claims.claimedVerdict, claims.successKeyTruthy,
                HttpModel.Json.inOp, hB, hS]
            · simp [test_security.test_request_pass,
                test_security.expectedCheck, test_security.successCheck,
                claims.claimedVerdict, claims.successKeyTruthy,
                HttpModel.Json.inOp, hB, hS]
            · cases hc : PyModel.strContains ss "success" <;>
                simp [test_security.test_request_pass,
                  test_security.expectedCheck, test_security.successCheck,
                  claims.claimedVerdict, claims.successKeyTruthy,
                  HttpModel.Json.inOp, HttpModel.Json.getItem, hB, hS, hc]
            · cases hc : xs.any (HttpModel.Json.isStrVal "success") <;>
                simp [test_security.test_request_pass,
                  test_security.expectedCheck, test_security.successCheck,
                  claims.claimedVerdict, claims.successKeyTruthy,
                  HttpModel.Json.inOp, HttpModel.Json.getItem, hB, hS, hc]
            · rcases hf : fs.find? (fun p => p.1 = "success") with _ | p
              · have ha : (fs.any fun p => p.1 = "success") = false := by
                  rw [any_key_eq_find_isSome, hf]; rfl
                simp [test_security.test_request_pass,
                  test_security.expectedCheck, test_security.successCheck,
                  claims.claimedVerdict, claims.successKeyTruthy,
                  HttpModel.Json.inOp, hB, hS, ha, hf]
              · have ha : (fs.any fun p => p.1 = "success") = true := by
                  rw [any_key_eq_find_isSome, hf]; rfl
                simp [test_security.test_request_pass,
                  test_security.expectedCheck, test_security.successCheck,
                  claims.claimedVerdict, claims.successKeyTruthy,
                  HttpModel.Json.inOp, HttpModel.Json.getItem, hB, hS, ha,
                  hf]
        · simp [test_security.test_request_pass,
            test_security.expectedCheck, test_security.successCheck,
            claims.claimedVerdict, claims.successKeyTruthy, hB, hS, h2]
      · simp [test_security.test_request_pass, test_security.expectedCheck,
          claims.claimedVerdict, hB, hS]
  · intro url data expected status text js dumps jdumps
    rcases h : test_security.expectedCheck status js expected with u | b <;>
      simp [test_security.test_request, test_security.test_request_pass, h]

set_option maxHeartbeats 4000000 in
/-- C3: in every run of seed_admin_users.main, the SQL trace contains no
transaction statement, every INSERT into each of the three databases
happens strictly after a DELETE on that database already ran, at most one
admin INSERT is attempted per database, and no SELECT on a database (in
particular no uniqueness check) precedes its INSERT; moreover, whenever
the connection to a database succeeds, the unconditional DELETE on its
users table is attempted, whatever every other answer is. -/
theorem c3_seed_deletes_before_inserts :
    (∀ (tab : PyModel.Tab) (w : seed_admin_users.World),
       claims.seedTraceOk (seed_admin_users.main tab w).1 = true) ∧
    (∀ (tab : PyModel.Tab) (lib : seed_admin_users.BcryptLib)
       (codec : seed_admin_users.Utf8Codec)
       (n1 n2 n3 : PyModel.PyDatetime) (dr : Except String Nat)
       (dsr : Except String (List String)) (ir : Except String Unit)
       (demoE maroonE : seed_admin_users.SeedTargetEnv)
       (v1 v2 v3 : seed_admin_users.VerifyTargetEnv),
       seed_admin_users.SqlOp.delete "school_erp_system" "system_users" ∈
         (seed_admin_users.main tab
           ⟨lib, codec, n1, n2, n3, ⟨Except.ok (), dr, dsr, ir⟩, demoE,
            maroonE, v1, v2, v3⟩).1) ∧
    (∀ (tab : PyModel.Tab) (lib : seed_admin_users.BcryptLib)
       (codec : seed_admin_users.Utf8Codec)
       (n1 n2 n3 : PyModel.PyDatetime) (dr : Except String Nat)
       (dsr : Except String (List String)) (ir : Except String Unit)
       (sysE maroonE : seed_admin_users.SeedTargetEnv)
       (v1 v2 v3 : seed_admin_users.VerifyTargetEnv),
       seed_admin_users.SqlOp.delete "school_erp_trust_demo" "users" ∈
         (seed_admin_users.main tab
           ⟨lib, codec, n1, n2, n3, sysE, ⟨Except.ok (), dr, dsr, ir⟩,
            maroonE, v1, v2, v3⟩).1) ∧
    (∀ (tab : PyModel.Tab) (lib : seed_admin_users.BcryptLib)
       (codec : seed_admin_users.Utf8Codec)
       (n1 n2 n3 : PyModel.PyDatetime) (dr : Except String Nat)
       (dsr : Except String (List String)) (ir : Except String Unit)
       (sysE demoE : seed_admin_users.SeedTargetEnv)
       (v1 v2 v3 : seed_admin_users.VerifyTargetEnv),
       seed_admin_users.SqlOp.delete "school_erp_trust_maroon" "users" ∈
         (seed_admin_users.main tab
           ⟨lib, codec, n1, n2, n3, sysE, demoE,
            ⟨Except.ok (), dr, dsr, ir⟩, v1, v2, v3⟩).1) := by
  refine ⟨?_, ?_, ?_, ?_⟩
  · intro tab w
    obtain ⟨lib, codec, n1, n2, n3, sysE, demoE, maroonE, v1, v2, v3⟩ := w
    obtain ⟨sc, sdr, sdsr, sir⟩ := sysE
    obtain ⟨dc, ddr, ddsr, dir⟩ := demoE
    obtain ⟨mc, mdr, mdsr, mir⟩ := maroonE
    obtain ⟨v1c, v1d, v1s⟩ := v1
    obtain ⟨v2c, v2d, v2s⟩ := v2
    obtain ⟨v3c, v3d, v3s⟩ := v3
    rcases sc with _ | _ <;> rcases dc with _ | _ <;>
      rcases ddsr with _ | _ <;> rcases mc with _ | _ <;>
      rcases mdsr with _ | _ <;> rcases v1c with _ | _ <;>
      rcases v2c with _ | _ <;> rcases v2d with _ | _ <;>
      rcases v3c with _ | _ <;> rcases v3d with _ | _ <;> rfl
  · intro tab lib codec n1 n2 n3 dr dsr ir demoE maroonE v1 v2 v3
    exact List.mem_append_left _ (List.mem_append_left _
      (List.mem_append_left _
        (List.mem_append_left _ (List.Mem.head _))))
  · intro tab lib codec n1 n2 n3 dr dsr ir sysE maroonE v1 v2 v3
    exact List.mem_append_left _ (List.mem_append_left _
      (List.mem_append_right _
        (List.mem_append_left _ (List.Mem.head _))))
  · intro tab lib codec n1 n2 n3 dr dsr ir sysE demoE v1 v2 v3
    exact List.mem_append_left _ (List.mem_append_right _
      (List.mem_append_left _ (List.Mem.head _)))

/-- Evaluation check of the replacement embedding on the trust database
prefix the scripts strip. -/
theorem pyReplace_strips_trust_marker :
    PyModel.pyReplace "school_erp_trust_demo" "school_erp_trust_" "" =
      "demo" := by decide

/-- Evaluation check that pyReplace rewrites every occurrence, as the
Python method does. -/
theorem pyReplace_all_occurrences :
    PyModel.pyReplace "axbxc" "x" "y" = "aybyc" := by decide

/-- Evaluation check of the strftime embedding on one concrete instant. -/
theorem strftime_sample :
    PyModel.strftimeYmdHMS ⟨2024, 3, 7, 9, 5, 1⟩ = "2024-03-07 09:05:01" := by
  decide
